import Mathlib

/-!
Verification of the StudentForge payment backend (`server.js`).

The development shallowly embeds the three request handlers of the server —
`/create_order`, `/verify_payment` and `/payment_callback` — as pure Lean
functions. External effects are made explicit:

* the HMAC-SHA256 of Node's `crypto` module is implemented concretely
  (`hmacSha256Hex`), validated against standard test vectors below;
  `createHmacHex` models Node's `crypto.createHmac`, which throws when the
  key argument is `undefined` and accepts a zero-length string key;
* the outcome of each outbound `axios` call is a parameter of the handler
  (the gateway's answer, or `none` when the call throws);
* every `logToFile` append is collected in a returned trace, in order;
* JavaScript value coercions that the handlers rely on are modelled
  explicitly: `undefined` string interpolation (`jsStr`), string falsiness
  (`strFalsy`), and property lookup on a plain object, which consults the
  own properties first and then `Object.prototype` (`objGet`).
-/

set_option maxRecDepth 100000

namespace SF

/-! ## Bytes, SHA-256 and HMAC -/

/-- Truncate to a 32-bit word. -/
def w32 (n : Nat) : Nat := n % 4294967296

/-- Rotate a 32-bit word right by `b` bit positions. -/
def rotR (b n : Nat) : Nat := (n >>> b) ||| ((n <<< (32 - b)) % 4294967296)

/-- Complement of a word, taken inside 32 bits. -/
def not32 (n : Nat) : Nat := n ^^^ 4294967295

/-- Choice function of the compression rounds. -/
def chF (x y z : Nat) : Nat := (x &&& y) ^^^ (not32 x &&& z)

/-- Majority function of the compression rounds. -/
def majF (x y z : Nat) : Nat := (x &&& y) ^^^ (x &&& z) ^^^ (y &&& z)

/-- First round mixing function (the capital sigma 0 of FIPS 180). -/
def sumA (x : Nat) : Nat := rotR 2 x ^^^ rotR 13 x ^^^ rotR 22 x

/-- Second round mixing function (the capital sigma 1 of FIPS 180). -/
def sumE (x : Nat) : Nat := rotR 6 x ^^^ rotR 11 x ^^^ rotR 25 x

/-- First schedule mixing function (the small sigma 0 of FIPS 180). -/
def mixA (x : Nat) : Nat := rotR 7 x ^^^ rotR 18 x ^^^ (x >>> 3)

/-- Second schedule mixing function (the small sigma 1 of FIPS 180). -/
def mixE (x : Nat) : Nat := rotR 17 x ^^^ rotR 19 x ^^^ (x >>> 10)

/-- Round constants of SHA-256, in decimal. -/
def K256 : List Nat :=
  [1116352408, 1899447441, 3049323471, 3921009573, 961987163, 1508970993,
   2453635748, 2870763221, 3624381080, 310598401, 607225278, 1426881987,
   1925078388, 2162078206, 2614888103, 3248222580, 3835390401, 4022224774,
   264347078, 604807628, 770255983, 1249150122, 1555081692, 1996064986,
   2554220882, 2821834349, 2952996808, 3210313671, 3336571891, 3584528711,
   113926993, 338241895, 666307205, 773529912, 1294757372, 1396182291,
   1695183700, 1986661051, 2177026350, 2456956037, 2730485921, 2820302411,
   3259730800, 3345764771, 3516065817, 3600352804, 4094571909, 275423344,
   430227734, 506948616, 659060556, 883997877, 958139571, 1322822218,
   1537002063, 1747873779, 1955562222, 2024104815, 2227730452, 2361852424,
   2428436474, 2756734187, 3204031479, 3329325298]

/-- Working state of the compression loop. -/
structure Hash8 where
  a : Nat
  b : Nat
  c : Nat
  d : Nat
  e : Nat
  f : Nat
  g : Nat
  h : Nat
deriving Repr, DecidableEq

/-- Initial hash value of SHA-256, in decimal. -/
def H0 : Hash8 :=
  { a := 1779033703, b := 3144134277, c := 1013904242, d := 2773480762,
    e := 1359893119, f := 2600822924, g := 528734635, h := 1541459225 }

/-- Big-endian 32-bit word from four bytes. -/
def word4 (b0 b1 b2 b3 : Nat) : Nat := b0 * 16777216 + b1 * 65536 + b2 * 256 + b3

/-- The sixteen message words of a 64-byte block. -/
def blockWords (blk : List Nat) : List Nat :=
  (List.range 16).map fun i =>
    word4 (blk.getD (4 * i) 0) (blk.getD (4 * i + 1) 0)
          (blk.getD (4 * i + 2) 0) (blk.getD (4 * i + 3) 0)

/-- Extend sixteen message words to the 64-entry schedule. -/
def schedule256 (w16 : List Nat) : List Nat :=
  (List.range 48).foldl
    (fun w _ =>
      let t := w.length
      w ++ [w32 (mixE (w.getD (t - 2) 0) + w.getD (t - 7) 0 +
                 mixA (w.getD (t - 15) 0) + w.getD (t - 16) 0)])
    w16

/-- One round of the compression function. -/
def round256 (ws : List Nat) (s : Hash8) (t : Nat) : Hash8 :=
  let T1 := w32 (s.h + sumE s.e + chF s.e s.f s.g + K256.getD t 0 + ws.getD t 0)
  let T2 := w32 (sumA s.a + majF s.a s.b s.c)
  { a := w32 (T1 + T2), b := s.a, c := s.b, d := s.c,
    e := w32 (s.d + T1), f := s.e, g := s.f, h := s.g }

/-- Compress one 64-byte block into the running hash value. -/
def compress256 (hv : Hash8) (blk : List Nat) : Hash8 :=
  let ws := schedule256 (blockWords blk)
  let r := (List.range 64).foldl (round256 ws) hv
  { a := w32 (hv.a + r.a), b := w32 (hv.b + r.b), c := w32 (hv.c + r.c),
    d := w32 (hv.d + r.d), e := w32 (hv.e + r.e), f := w32 (hv.f + r.f),
    g := w32 (hv.g + r.g), h := w32 (hv.h + r.h) }

/-- Big-endian eight-byte encoding of the bit length. -/
def lenBytes (bits : Nat) : List Nat :=
  (List.range 8).map fun i => (bits >>> (8 * (7 - i))) % 256

/-- SHA-256 padding: a 0x80 byte, zeros, then the 64-bit message bit length. -/
def sha256Pad (msg : List Nat) : List Nat :=
  let L := msg.length
  msg ++ [128] ++ List.replicate ((119 - L % 64) % 64) 0 ++ lenBytes (8 * L)

/-- Big-endian bytes of a 32-bit word. -/
def wordBytes (w : Nat) : List Nat := [(w >>> 24) % 256, (w >>> 16) % 256, (w >>> 8) % 256, w % 256]

/-- SHA-256 digest of a byte list, as 32 bytes. -/
def sha256 (msg : List Nat) : List Nat :=
  let p := sha256Pad msg
  let n := p.length / 64
  let hv := (List.range n).foldl
    (fun hv i => compress256 hv ((p.drop (64 * i)).take 64)) H0
  wordBytes hv.a ++ wordBytes hv.b ++ wordBytes hv.c ++ wordBytes hv.d ++
  wordBytes hv.e ++ wordBytes hv.f ++ wordBytes hv.g ++ wordBytes hv.h

/-- One lowercase hexadecimal digit. -/
def hexDigit (d : Nat) : Char := Char.ofNat (if d < 10 then 48 + d else 87 + d)

/-- Lowercase hexadecimal rendering of a byte list. -/
def bytesToHex (bs : List Nat) : String :=
  String.mk (bs.foldr (fun b acc => hexDigit (b / 16 % 16) :: hexDigit (b % 16) :: acc) [])

/-- UTF-8 encoding of one character. -/
def utf8Char (c : Char) : List Nat :=
  let n := c.toNat
  if n < 128 then [n]
  else if n < 2048 then [192 + n / 64, 128 + n % 64]
  else if n < 65536 then [224 + n / 4096, 128 + n / 64 % 64, 128 + n % 64]
  else [240 + n / 262144, 128 + n / 4096 % 64, 128 + n / 64 % 64, 128 + n % 64]

/-- UTF-8 bytes of a string. -/
def utf8 (s : String) : List Nat := s.data.foldr (fun c acc => utf8Char c ++ acc) []

/-- HMAC-SHA256 over byte lists (RFC 2104 with a 64-byte block size). -/
def hmacSha256 (key msg : List Nat) : List Nat :=
  let k0 := if 64 < key.length then sha256 key else key
  let kp := k0 ++ List.replicate (64 - k0.length) 0
  sha256 ((kp.map fun b => b ^^^ 92) ++ sha256 ((kp.map fun b => b ^^^ 54) ++ msg))

/-- Hex HMAC-SHA256 of UTF-8 strings: the behaviour of
`crypto.createHmac("sha256", key).update(msg).digest("hex")` for a string key. -/
def hmacSha256Hex (key msg : String) : String := bytesToHex (hmacSha256 (utf8 key) (utf8 msg))

/-! ## JavaScript value model

The handlers rely on three JavaScript behaviours that the embedding makes
explicit: interpolation of `undefined` into a string, falsiness of string
values, and property lookup on a plain object (own properties shadow the
properties inherited from `Object.prototype`). -/

/-- String concatenation of a possibly-undefined value: `undefined + "|"`
yields the text "undefined". -/
def jsStr : Option String → String
  | none => "undefined"
  | some s => s

/-- Falsiness of a possibly-undefined string: `!x` is true exactly for
`undefined` and the empty string. -/
def strFalsy : Option String → Bool
  | none => true
  | some s => s = ""

/-- A property read from the plain object `allowedCourses`. -/
inductive JsProp where
  /-- An own property: a price copied from `courses.json`. -/
  | num (p : Int)
  /-- A function or object inherited from `Object.prototype`. -/
  | fn
  /-- Not a property at all. -/
  | undef
deriving Repr, DecidableEq

/-- The property names every plain object inherits from `Object.prototype`. -/
def objectPrototypeKeys : List String :=
  ["constructor", "hasOwnProperty", "isPrototypeOf", "propertyIsEnumerable",
   "toLocaleString", "toString", "valueOf", "__defineGetter__",
   "__defineSetter__", "__lookupGetter__", "__lookupSetter__", "__proto__"]

/-- The own properties of `allowedCourses`: one assignment per entry of
`courses.json` in file order, so a later entry with the same name wins. -/
def catLookup (cat : List (String × Int)) (k : String) : Option Int :=
  cat.foldl (fun acc e => if e.1 = k then some e.2 else acc) none

/-- Property lookup `allowedCourses[k]`: own properties first, then the
prototype chain, else `undefined`. -/
def objGet (cat : List (String × Int)) (k : String) : JsProp :=
  match catLookup cat k with
  | some p => JsProp.num p
  | none => if k ∈ objectPrototypeKeys then JsProp.fn else JsProp.undef

/-- Truthiness of a looked-up property: the number 0 is falsy, functions are
truthy, `undefined` is falsy. -/
def truthy : JsProp → Bool
  | JsProp.num p => p ≠ 0
  | JsProp.fn => true
  | JsProp.undef => false

/-- A JavaScript number that is either an exact integer or NaN. -/
inductive JsNum where
  | int (n : Int)
  | nan
deriving Repr, DecidableEq

/-- The expression `amount * 100`: exact on integer prices (the values in
play are far below 2^53, so the double multiplication is exact), NaN when
the looked-up value was an inherited function. -/
def jsMul100 : JsProp → JsNum
  | JsProp.num p => JsNum.int (p * 100)
  | _ => JsNum.nan

/-- Node's `crypto.createHmac("sha256", key).update(msg).digest("hex")`:
throws `ERR_INVALID_ARG_TYPE` when the key is `undefined`; a string key —
including the zero-length string — is accepted and the digest computed. -/
def createHmacHex (key : Option String) (msg : String) : Except Unit String :=
  match key with
  | none => Except.error ()
  | some k => Except.ok (hmacSha256Hex k msg)

/-! ## The `/create_order` handler -/

/-- The request body of `/create_order` as the handler reads it. -/
structure OrderBody where
  course : Option String
deriving Repr, DecidableEq

/-- The gateway's answer to the outbound order-creation POST. -/
structure GatewayOrder where
  id : String
  amount : Int
  currency : String
deriving Repr, DecidableEq

/-- The fields of the outbound Razorpay order-creation request that the
handler computes itself. -/
structure OutboundOrder where
  amount : JsNum
  currency : String
deriving Repr, DecidableEq

/-- One `logToFile` append performed by `/create_order`, tagged by stream. -/
inductive OrderLog where
  /-- `order_create_request.log`: the raw inbound body. -/
  | request (body : OrderBody)
  /-- `order_create_response.log`: the gateway's response data. -/
  | response (d : GatewayOrder)
  /-- `order_create_error.log`: the caught gateway failure. -/
  | error
deriving Repr, DecidableEq

/-- The HTTP response of `/create_order`. -/
inductive OrderResp where
  /-- 200 with order id, amount, currency and course. -/
  | ok (order_id : String) (amount : Int) (currency : String) (course : String)
  /-- 400 "Invalid course selected". -/
  | invalidCourse
  /-- 500 "Failed to create Razorpay order". -/
  | gatewayError
deriving Repr, DecidableEq

/-- Everything one invocation of `/create_order` does. -/
structure OrderResult where
  logs : List OrderLog
  outbound : Option OutboundOrder
  resp : OrderResp
deriving Repr, DecidableEq

/-- The `/create_order` handler. `cat` is the catalog loaded from
`courses.json`; `gateway` is the outcome of the outbound `axios.post`
(`none` when it throws), consulted only if the request is sent. -/
def create_order (cat : List (String × Int)) (gateway : Option GatewayOrder)
    (body : OrderBody) : OrderResult :=
  let logs0 := [OrderLog.request body]
  if strFalsy body.course then
    { logs := logs0, outbound := none, resp := OrderResp.invalidCourse }
  else
    let c := jsStr body.course
    let prop := objGet cat c
    if truthy prop then
      let out : OutboundOrder := { amount := jsMul100 prop, currency := "INR" }
      match gateway with
      | some d =>
          { logs := logs0 ++ [OrderLog.response d], outbound := some out,
            resp := OrderResp.ok d.id d.amount d.currency c }
      | none =>
          { logs := logs0 ++ [OrderLog.error], outbound := some out,
            resp := OrderResp.gatewayError }
    else
      { logs := logs0, outbound := none, resp := OrderResp.invalidCourse }

/-! ## The `/verify_payment` handler -/

/-- The request body of `/verify_payment`. -/
structure VerifyBody where
  order_id : Option String
  payment_id : Option String
  signature : Option String
deriving Repr, DecidableEq

/-- The HTTP response of `/verify_payment`. -/
inductive VerifyResp where
  /-- 200 with the verdict. -/
  | ok (valid : Bool)
  /-- 400 "Missing required fields". -/
  | missingFields
  /-- 500 "Internal Server Error" from the catch block. -/
  | internalError
deriving Repr, DecidableEq

/-- Everything one invocation of `/verify_payment` does: the response and
the list of messages actually fed to an HMAC computation. -/
structure VerifyResult where
  resp : VerifyResp
  hmacs : List String
deriving Repr, DecidableEq

/-- The `/verify_payment` handler. `secret` is `RAZORPAY_KEY_SECRET`
(`none` when the environment variable is unset). -/
def verify_payment (secret : Option String) (body : VerifyBody) : VerifyResult :=
  if strFalsy body.order_id || strFalsy body.payment_id || strFalsy body.signature then
    { resp := VerifyResp.missingFields, hmacs := [] }
  else
    match createHmacHex secret (jsStr body.order_id ++ "|" ++ jsStr body.payment_id) with
    | Except.error _ => { resp := VerifyResp.internalError, hmacs := [] }
    | Except.ok generated_signature =>
        { resp := VerifyResp.ok (generated_signature == jsStr body.signature),
          hmacs := [jsStr body.order_id ++ "|" ++ jsStr body.payment_id] }

/-! ## The `/payment_callback` handler -/

/-- The form-encoded callback payload; each field may be absent. -/
structure CallbackBody where
  razorpay_payment_id : Option String
  razorpay_order_id : Option String
  razorpay_signature : Option String
deriving Repr, DecidableEq

/-- The consolidated record written to `callback_complete.log`. -/
structure CallbackRecord where
  payment_id : Option String
  order_id : Option String
  signature_received : Option String
  signature_generated : String
  signature_match : Bool
  status_api : Option String
  timestamp : String
deriving Repr, DecidableEq

/-- One `logToFile` append performed by `/payment_callback`. -/
inductive CallbackLog where
  /-- `callback_request.log`: the raw inbound payload. -/
  | request (body : CallbackBody)
  /-- `callback_status_error.log`: the caught status-lookup failure. -/
  | statusError
  /-- `callback_complete.log`: the consolidated decision record. -/
  | complete (r : CallbackRecord)
deriving Repr, DecidableEq

/-- The redirect the handler answers with. -/
inductive Redirect where
  /-- `https://studentforge.com/payment/success?order=<id>&amount=PAID`. -/
  | success (order : Option String)
  /-- `https://studentforge.com/payment/failure`. -/
  | failure
deriving Repr, DecidableEq

/-- Everything one invocation of `/payment_callback` does. `redirect = none`
means the handler threw before responding: the response never left the
server. -/
structure CallbackResult where
  logs : List CallbackLog
  redirect : Option Redirect
deriving Repr, DecidableEq

/-- Whether a callback log entry is the consolidated decision record. -/
def isComplete : CallbackLog → Bool
  | CallbackLog.complete _ => true
  | _ => false

/-- The `/payment_callback` handler. `secret` is `RAZORPAY_KEY_SECRET`;
`statusLookup` is the status string returned by the gateway payment-status
GET, or `none` when that call throws; `now` is the ISO timestamp. The
signature computation sits outside any try/catch: when `createHmac` throws
(unset secret) the handler aborts with no further log and no redirect. -/
def payment_callback (secret : Option String) (statusLookup : Option String)
    (now : String) (body : CallbackBody) : CallbackResult :=
  let logs0 := [CallbackLog.request body]
  match createHmacHex secret
      (jsStr body.razorpay_order_id ++ "|" ++ jsStr body.razorpay_payment_id) with
  | Except.error _ => { logs := logs0, redirect := none }
  | Except.ok generated_signature =>
      let signatureMatch := body.razorpay_signature == some generated_signature
      let statusLogs := match statusLookup with
        | some _ => ([] : List CallbackLog)
        | none => [CallbackLog.statusError]
      let record : CallbackRecord :=
        { payment_id := body.razorpay_payment_id,
          order_id := body.razorpay_order_id,
          signature_received := body.razorpay_signature,
          signature_generated := generated_signature,
          signature_match := signatureMatch,
          status_api := statusLookup,
          timestamp := now }
      let logs := logs0 ++ statusLogs ++ [CallbackLog.complete record]
      if signatureMatch && statusLookup == some "captured" then
        { logs := logs, redirect := some (Redirect.success body.razorpay_order_id) }
      else
        { logs := logs, redirect := some Redirect.failure }

/-! ## Validation of the embedded HMAC-SHA256 against standard vectors -/

/-- SHA-256 of the empty message (FIPS 180 test vector). -/
theorem sha256_empty_vector :
    bytesToHex (sha256 (utf8 "")) =
      "e3b0c44298fc1c149afbf4c8996fb92427ae41e4649b934ca495991b7852b855" := by
  decide

/-- SHA-256 of "abc" (FIPS 180 test vector). -/
theorem sha256_abc_vector :
    bytesToHex (sha256 (utf8 "abc")) =
      "ba7816bf8f01cfea414140de5dae2223b00361a396177a9cb410ff61f20015ad" := by
  decide

/-- HMAC-SHA256 with key "key" over a two-block message (well-known vector). -/
theorem hmac_fox_vector :
    hmacSha256Hex "key" "The quick brown fox jumps over the lazy dog" =
      "f7bc83f430538424b13298e6aa6fb143ef4d59a14946175997479dbc2d1a3cd8" := by
  decide

/-- HMAC-SHA256 with a zero-length key and empty message (well-known vector):
Node accepts a zero-length HMAC key, and this is the digest it produces. -/
theorem hmac_empty_vector :
    hmacSha256Hex "" "" =
      "b613679a0814d9ec772f95d778c35fc5ff1697c493715653c6c712144292c5ad" := by
  decide

/-- A hex-rendered HMAC digest is never the empty string. -/
theorem hmacSha256Hex_ne_empty (k m : String) : hmacSha256Hex k m ≠ "" := by
  obtain ⟨a, t, h⟩ : ∃ a t, hmacSha256 (utf8 k) (utf8 m) = a :: t := ⟨_, _, rfl⟩
  rw [hmacSha256Hex, h]
  intro h2
  have h3 := congrArg String.data h2
  simp [bytesToHex] at h3

/-! ## The claims -/

/-- C1: with the gateway secret set, the callback handler issues the success
redirect iff the signature it computes over the (coerced) order and payment
ids equals the received `razorpay_signature` and the status lookup returned
"captured"; in every other combination — status "pending", status null
because the lookup failed, or signature mismatch regardless of status — it
issues the failure redirect. -/
theorem C1_success_redirect_iff_signature_and_captured
    (s : String) (st : Option String) (now : String) (body : CallbackBody) :
    ((payment_callback (some s) st now body).redirect =
        some (Redirect.success body.razorpay_order_id) ↔
      (body.razorpay_signature = some (hmacSha256Hex s
          (jsStr body.razorpay_order_id ++ "|" ++ jsStr body.razorpay_payment_id)) ∧
       st = some "captured"))
    ∧ ((body.razorpay_signature ≠ some (hmacSha256Hex s
          (jsStr body.razorpay_order_id ++ "|" ++ jsStr body.razorpay_payment_id)) ∨
        st ≠ some "captured") →
      (payment_callback (some s) st now body).redirect = some Redirect.failure) := by
  by_cases hsig : body.razorpay_signature = some (hmacSha256Hex s
      (jsStr body.razorpay_order_id ++ "|" ++ jsStr body.razorpay_payment_id)) <;>
    by_cases hst : st = some "captured" <;>
    simp [payment_callback, createHmacHex, hsig, hst]

/-- C1 witness: a matching signature together with status "captured" yields
the success redirect carrying the order id. -/
theorem C1_witness :
    (payment_callback (some "k") (some "captured") "2026-02-03T04:05:06.000Z"
      { razorpay_payment_id := some "pay_w1", razorpay_order_id := some "order_w1",
        razorpay_signature := some (hmacSha256Hex "k"
          (jsStr (some "order_w1") ++ "|" ++ jsStr (some "pay_w1"))) }).redirect =
      some (Redirect.success (some "order_w1")) :=
  (C1_success_redirect_iff_signature_and_captured "k" (some "captured")
      "2026-02-03T04:05:06.000Z"
      { razorpay_payment_id := some "pay_w1", razorpay_order_id := some "order_w1",
        razorpay_signature := some (hmacSha256Hex "k"
          (jsStr (some "order_w1") ++ "|" ++ jsStr (some "pay_w1"))) }).1.mpr
    ⟨rfl, rfl⟩

/-- C2 counterexample: with `RAZORPAY_KEY_SECRET` unset, `crypto.createHmac`
throws during step 2 (signature computation); the exception is not caught —
the handler emits no consolidated audit record and no redirect at all, so
the pipeline does not always resolve to a redirect. -/
theorem C2_counterexample_unset_secret_aborts :
    payment_callback none (some "captured") "2026-01-01T00:00:00.000Z"
      { razorpay_payment_id := some "pay_c2", razorpay_order_id := some "order_c2",
        razorpay_signature := some "sig_c2" } =
    { logs := [CallbackLog.request
        { razorpay_payment_id := some "pay_c2", razorpay_order_id := some "order_c2",
          razorpay_signature := some "sig_c2" }],
      redirect := none } := by
  decide

/-- C2 amended: an exception during the status lookup (step 3) never
prevents the consolidated audit record (step 5) or the terminal redirect
(step 6) — whenever the signature computation itself does not throw (the
secret is set), the pipeline always writes the record and resolves to a
redirect, for every lookup outcome; an exception in step 2 (unset secret)
instead aborts the pipeline before both. -/
theorem C2_amended_lookup_exception_still_logs_and_redirects
    (s : String) (st : Option String) (now : String) (body : CallbackBody) :
    (payment_callback (some s) st now body).redirect ≠ none ∧
      ∃ rec, CallbackLog.complete rec ∈ (payment_callback (some s) st now body).logs := by
  simp only [payment_callback]
  simp only [createHmacHex]
  cases st <;> split <;> simp

/-- C2 witness: a failing status lookup still ends in a redirect. -/
theorem C2_witness :
    (payment_callback (some "k") none "2026-02-03T04:05:06.000Z"
      { razorpay_payment_id := some "pay_w2", razorpay_order_id := some "order_w2",
        razorpay_signature := some "sig_w2" }).redirect ≠ none :=
  (C2_amended_lookup_exception_still_logs_and_redirects "k" none
      "2026-02-03T04:05:06.000Z"
      { razorpay_payment_id := some "pay_w2", razorpay_order_id := some "order_w2",
        razorpay_signature := some "sig_w2" }).1

/-- C3 counterexample: with the gateway secret unset, the signature
computation throws and the invocation appends no consolidated record at
all, so not every invocation appends exactly one. -/
theorem C3_counterexample_no_record_on_hmac_throw :
    ((payment_callback none none "2026-01-01T00:00:00.000Z"
      { razorpay_payment_id := some "pay_c3", razorpay_order_id := some "order_c3",
        razorpay_signature := some "sig_c3" }).logs.filter isComplete) = [] := by
  decide

/-- C3 amended: whenever the signature computation does not throw (the
secret is set), every invocation of the callback pipeline appends exactly
one consolidated record to `callback_complete.log` — with the payment id,
order id, received and generated signatures, match flag, looked-up status
(null when the lookup failed) and timestamp — both when the status lookup
succeeds and when it fails. -/
theorem C3_amended_exactly_one_complete_record
    (s : String) (st : Option String) (now : String) (body : CallbackBody) :
    ((payment_callback (some s) st now body).logs.filter isComplete) =
      [CallbackLog.complete
        { payment_id := body.razorpay_payment_id,
          order_id := body.razorpay_order_id,
          signature_received := body.razorpay_signature,
          signature_generated := hmacSha256Hex s
            (jsStr body.razorpay_order_id ++ "|" ++ jsStr body.razorpay_payment_id),
          signature_match := body.razorpay_signature == some (hmacSha256Hex s
            (jsStr body.razorpay_order_id ++ "|" ++ jsStr body.razorpay_payment_id)),
          status_api := st,
          timestamp := now }] := by
  simp only [payment_callback]
  simp only [createHmacHex]
  cases st <;> split <;> simp [isComplete, List.filter]

/-- C4 counterexample: with the secret set to the empty string, Node
computes the HMAC with a zero-length key, and a caller who supplies the
(attacker-computable) empty-key digest of "order_1|pay_1" is told the
signature is valid — verification does not fail closed on an empty
secret. -/
theorem C4_counterexample_empty_secret_accepts :
    (verify_payment (some "")
      { order_id := some "order_1", payment_id := some "pay_1",
        signature :=
          some "bdc788b13b9bf544409174488f2f0cdb0ca9753b327f084529ec43b4cbccde7e" }).resp =
      VerifyResp.ok true := by
  decide

/-- C4 amended: if the secret is unset, verification fails closed —
`/verify_payment` never answers valid:true (the createHmac throw lands in
the catch block, a 500) and `/payment_callback` never issues the success
redirect (the throw aborts the handler); but if the secret is the empty
string, the HMAC is computed with a zero-length key and `/verify_payment`
reports valid:true for the matching empty-key digest. -/
theorem C4_amended_fail_closed_only_when_unset :
    (∀ body, (verify_payment none body).resp ≠ VerifyResp.ok true)
    ∧ (∀ st now body r,
        (payment_callback none st now body).redirect ≠ some (Redirect.success r))
    ∧ (∀ oid pid : String, oid ≠ "" → pid ≠ "" →
        (verify_payment (some "")
          ⟨some oid, some pid, some (hmacSha256Hex "" (oid ++ "|" ++ pid))⟩).resp =
          VerifyResp.ok true) := by
  refine ⟨fun body => ?_, fun st now body r => ?_, fun oid pid ho hp => ?_⟩
  · rw [verify_payment]
    split
    · simp
    · simp [createHmacHex]
  · simp only [payment_callback]
    simp [createHmacHex]
  · rw [verify_payment]
    have h1 : strFalsy (some oid) = false := by simp [strFalsy, ho]
    have h2 : strFalsy (some pid) = false := by simp [strFalsy, hp]
    have h3 : strFalsy (some (hmacSha256Hex "" (oid ++ "|" ++ pid))) = false := by
      simp [strFalsy, hmacSha256Hex_ne_empty]
    simp [h1, h2, h3, createHmacHex, jsStr]

/-- C4 witness: the empty-key digest is accepted when the secret is the
empty string. -/
theorem C4_witness :
    (verify_payment (some "")
      { order_id := some "order_w4", payment_id := some "pay_w4",
        signature := some (hmacSha256Hex "" ("order_w4" ++ "|" ++ "pay_w4")) }).resp =
      VerifyResp.ok true :=
  C4_amended_fail_closed_only_when_unset.2.2 "order_w4" "pay_w4"
    (by decide) (by decide)

/-- C5: with all three fields present and a non-empty secret,
`/verify_payment` answers valid:true iff the supplied signature equals the
hex HMAC-SHA256, keyed with the secret, of `order_id + "|" + payment_id`;
consequently a supplied string of the same length that differs from the
correct digest — in particular one with a single character changed — is
answered valid:false. -/
theorem C5_valid_iff_hmac_of_ids
    (s oid pid sig : String)
    (_hs : s ≠ "") (ho : oid ≠ "") (hp : pid ≠ "") (hg : sig ≠ "") :
    ((verify_payment (some s) ⟨some oid, some pid, some sig⟩).resp = VerifyResp.ok true ↔
      sig = hmacSha256Hex s (oid ++ "|" ++ pid))
    ∧ (∀ sig2 : String, sig2.data.length = sig.data.length → sig2 ≠ sig →
        sig = hmacSha256Hex s (oid ++ "|" ++ pid) →
        (verify_payment (some s) ⟨some oid, some pid, some sig2⟩).resp =
          VerifyResp.ok false) := by
  constructor
  · rw [verify_payment]
    have h1 : strFalsy (some oid) = false := by simp [strFalsy, ho]
    have h2 : strFalsy (some pid) = false := by simp [strFalsy, hp]
    have h3 : strFalsy (some sig) = false := by simp [strFalsy, hg]
    simp [h1, h2, h3, createHmacHex, jsStr]
    exact eq_comm
  · intro sig2 hlen hne hsig
    have hg2 : sig2 ≠ "" := by
      intro h0
      subst h0
      have h5 : sig.data = [] := by
        have h4 : ("" : String).data = [] := rfl
        rw [h4] at hlen
        exact List.eq_nil_of_length_eq_zero hlen.symm
      exact hg (by cases sig; simp_all)
    rw [verify_payment]
    have h1 : strFalsy (some oid) = false := by simp [strFalsy, ho]
    have h2 : strFalsy (some pid) = false := by simp [strFalsy, hp]
    have h3 : strFalsy (some sig2) = false := by simp [strFalsy, hg2]
    simp [h1, h2, h3, createHmacHex, jsStr]
    rw [← hsig]
    simpa [eq_comm] using hne

/-- C5 witness: the correct digest is accepted. -/
theorem C5_witness :
    (verify_payment (some "k")
      { order_id := some "o", payment_id := some "p",
        signature := some (hmacSha256Hex "k" ("o" ++ "|" ++ "p")) }).resp =
      VerifyResp.ok true :=
  ((C5_valid_iff_hmac_of_ids "k" "o" "p" (hmacSha256Hex "k" ("o" ++ "|" ++ "p"))
      (by decide) (by decide) (by decide)
      (hmacSha256Hex_ne_empty "k" ("o" ++ "|" ++ "p"))).1).mpr rfl

/-- C6: for a request whose course is a key of the catalog with a positive
price, the outbound order-creation request carries exactly that price
multiplied by 100, as an exact integer, with currency INR. -/
theorem C6_outbound_amount_is_price_times_100
    (cat : List (String × Int)) (gw : Option GatewayOrder)
    (c : String) (p : Int) (hc : c ≠ "") (hp : 0 < p)
    (hcat : catLookup cat c = some p) :
    (create_order cat gw ⟨some c⟩).outbound =
      some { amount := JsNum.int (p * 100), currency := "INR" } := by
  rw [create_order]
  have h1 : strFalsy (some c) = false := by simp [strFalsy, hc]
  have h2 : objGet cat c = JsProp.num p := by simp [objGet, hcat]
  have h3 : truthy (JsProp.num p) = true := by simp [truthy]; omega
  simp [h1, jsStr, h2, h3, jsMul100]
  cases gw <;> simp

/-- C6 witness: catalog price 500 yields outbound amount 50000. -/
theorem C6_witness :
    (create_order [("ValidCourse", 500)]
      (some { id := "order_w6", amount := 50000, currency := "INR" })
      { course := some "ValidCourse" }).outbound =
      some { amount := JsNum.int 50000, currency := "INR" } := by
  simpa using C6_outbound_amount_is_price_times_100 [("ValidCourse", 500)]
    (some { id := "order_w6", amount := 50000, currency := "INR" })
    "ValidCourse" 500 (by decide) (by decide) (by decide)

/-- C7 counterexample: "constructor" is not a key of the catalog, yet the
falsy-check lookup finds the inherited `Object.prototype.constructor`, so
the handler does not answer 400 and does make an outbound order-creation
call — with amount NaN. -/
theorem C7_counterexample_prototype_property_passes :
    (create_order [("WebDev", 500)]
        (some { id := "order_c7", amount := 50000, currency := "INR" })
        { course := some "constructor" }).resp ≠ OrderResp.invalidCourse ∧
    (create_order [("WebDev", 500)]
        (some { id := "order_c7", amount := 50000, currency := "INR" })
        { course := some "constructor" }).outbound =
      some { amount := JsNum.nan, currency := "INR" } := by
  decide

/-- C7 amended: a request whose course field is absent, empty, or a string
that is neither a key of the course catalog nor the name of a property
inherited from `Object.prototype` (such as "constructor" or "toString") is
answered 400 invalid-course, and no outbound gateway call is made. -/
theorem C7_amended_unknown_course_rejected
    (cat : List (String × Int)) (gw : Option GatewayOrder) (body : OrderBody)
    (h : body.course = none ∨ body.course = some "" ∨
         ∃ c, body.course = some c ∧ catLookup cat c = none ∧
              c ∉ objectPrototypeKeys) :
    (create_order cat gw body).resp = OrderResp.invalidCourse ∧
      (create_order cat gw body).outbound = none := by
  rw [create_order]
  rcases h with h | h | ⟨c, hbc, hcat, hproto⟩
  · simp [h, strFalsy]
  · simp [h, strFalsy]
  · rw [hbc]
    cases hc : strFalsy (some c)
    · have h2 : objGet cat c = JsProp.undef := by simp [objGet, hcat, hproto]
      simp [hc, jsStr, h2, truthy]
    · simp [hc]

/-- C7 witness: a course absent from the catalog is rejected with no
outbound call. -/
theorem C7_witness :
    (create_order [("WebDev", 500)] none { course := some "NoSuchCourse" }).resp =
      OrderResp.invalidCourse ∧
    (create_order [("WebDev", 500)] none { course := some "NoSuchCourse" }).outbound =
      none :=
  C7_amended_unknown_course_rejected [("WebDev", 500)] none
    { course := some "NoSuchCourse" }
    (Or.inr (Or.inr ⟨"NoSuchCourse", rfl, by decide, by decide⟩))

/-- C8: a `/verify_payment` request in which any of the three fields is
missing or empty is answered 400, and no HMAC is computed. -/
theorem C8_missing_fields_400_no_hmac
    (secret : Option String) (body : VerifyBody)
    (h : strFalsy body.order_id ∨ strFalsy body.payment_id ∨
         strFalsy body.signature) :
    verify_payment secret body = { resp := VerifyResp.missingFields, hmacs := [] } := by
  rw [verify_payment]
  rcases h with h | h | h <;> simp [h]

/-- C8 witness: a missing order id yields 400 with no HMAC computed. -/
theorem C8_witness :
    verify_payment (some "k")
      { order_id := none, payment_id := some "pay_w8", signature := some "sig_w8" } =
      { resp := VerifyResp.missingFields, hmacs := [] } :=
  C8_missing_fields_400_no_hmac (some "k")
    { order_id := none, payment_id := some "pay_w8", signature := some "sig_w8" }
    (Or.inl (by decide))

/-- C9: the callback handler validates nothing: whatever fields are absent
(its response type has no 400 at all), they are string-coerced into the
HMAC message — all-absent ids give "undefined|undefined" — and any received
signature other than the digest of that coerced message, in particular a
genuine gateway signature over real ids, produces the failure redirect,
with the mismatch recorded in the consolidated log entry. -/
theorem C9_no_validation_coerced_fields_fail
    (s : String) (st : Option String) (now : String)
    (pid oid sig : Option String)
    (h : sig ≠ some (hmacSha256Hex s (jsStr oid ++ "|" ++ jsStr pid))) :
    (payment_callback (some s) st now ⟨pid, oid, sig⟩).redirect =
      some Redirect.failure ∧
      CallbackLog.complete
        { payment_id := pid, order_id := oid, signature_received := sig,
          signature_generated := hmacSha256Hex s (jsStr oid ++ "|" ++ jsStr pid),
          signature_match := false, status_api := st, timestamp := now } ∈
        (payment_callback (some s) st now ⟨pid, oid, sig⟩).logs := by
  simp only [payment_callback]
  simp only [createHmacHex]
  cases st <;> simp [h]

/-- C9 witness: a payload missing every field is answered with the failure
redirect (the HMAC message having been coerced to "undefined|undefined"). -/
theorem C9_witness :
    (payment_callback (some "k") none "2026-02-03T04:05:06.000Z"
      { razorpay_payment_id := none, razorpay_order_id := none,
        razorpay_signature := none }).redirect = some Redirect.failure :=
  (C9_no_validation_coerced_fields_fail "k" none "2026-02-03T04:05:06.000Z"
    none none none (by simp)).1

/-- C10: `/create_order` appends the inbound body to
`order_create_request.log` as its very first effect, before course
validation — so every request, including one rejected as an invalid
course, is recorded in that stream. -/
theorem C10_request_logged_before_validation
    (cat : List (String × Int)) (gw : Option GatewayOrder) (body : OrderBody) :
    (create_order cat gw body).logs.head? = some (OrderLog.request body) := by
  rw [create_order]
  cases hc : strFalsy body.course
  · simp only [hc, Bool.false_eq_true, if_false]
    cases ht : truthy (objGet cat (jsStr body.course))
    · simp [ht]
    · cases gw <;> simp [ht]
  · simp [hc]

end SF
